import Mathlib

/-
Shallow embedding of the safe-route batch downloader (src/main.py) and
verification of its stated behaviour.

Modelling conventions:
  - Remote endpoints are modelled as pure functions packaged in an `Env`
    record; the per-account cookie jar is a single string.
  - The local filesystem is an association list from paths to byte lists.
  - Bytes are `Nat` values; raised exceptions of interest are `Option`
    failures (`none` = the call raised / fell through with Python `None`).
  - `asyncio` tasks are modelled by a result plus a wall-clock duration;
    `asyncio.gather` collects results in task-creation order.
-/

set_option linter.unusedVariables false

/-! ### Listing fetcher (src/main.py lines 138-159) -/

/-- Embedding of `get_all_travel_sheets_uuids`.  `server limit` is the parsed
`data` array of `GET /api/claim/claims?limit=<limit>&sort=-outgoing_date`,
each record reduced to its optional `uuid` field.  `fuel` bounds the
recursion depth so the embedding is total; the Python recursion maps to
`fuel = 0` never being reached on terminating runs, and a result of `none`
for every `fuel` means the Python code recurses forever.

The recursive call mirrors line 152 of the source exactly: the doubled
limit is passed *positionally*, where it binds the `number` parameter of
the Python signature `(session, number, limit=1000)`, so the `limit`
parameter silently reverts to its default `1000` (here an `optParam`).

The `ContentTypeError` branch (lines 145-148) logs and then crashes on an
unbound name; it is outside every claim and outside this embedding, which
covers responses whose body parses as JSON. -/
def get_all_travel_sheets_uuids (server : Nat → List (Option String))
    (fuel : Nat) (number : Nat) (limit : Nat := 1000) : Option (List String) :=
  match fuel with
  | 0 => none
  | Nat.succ fuel =>
    let travel_sheets := server limit
    if travel_sheets.length = limit then
      get_all_travel_sheets_uuids server fuel (limit * 2)
    else
      some (travel_sheets.filterMap id)

/-! ### Attachment resolver (src/main.py lines 106-119) -/

/-- One element of the JSON array returned by
`GET /api/claim/special_projects?claim_uuid=<uuid>`.  `obj v` is a JSON
object whose `special_project_uuid` field is `v` (`none` when the field is
absent, so that `.get` returns Python `None`); `malformed` is any element
for which the attribute access `json[0].get(...)` raises (for example a
non-object element, or a non-list payload). -/
inductive SPRecord where
  | obj (special_project_uuid : Option String)
  | malformed
  deriving DecidableEq

/-- Embedding of `get_special_project_file_uuid`: on an empty (falsy) list
the `if json:` guard fails and the function returns `None`; otherwise the
first element's field is returned, with any exception from the field
access caught and converted to `None`. -/
def get_special_project_file_uuid : List SPRecord → Option String
  | [] => none
  | SPRecord.obj v :: _ => v
  | SPRecord.malformed :: _ => none

/-! ### Deduplication step (src/main.py lines 122-135) -/

/-- `d` is a possible materialisation of Python `list(set(l))`: it has no
duplicates and exactly the members of `l`.  CPython leaves the iteration
order of a `set` unspecified (string hashing is even randomised per run),
so the theorems below quantify over every order. -/
abbrev IsDedupOf (d l : List (Option String)) : Prop :=
  d.Nodup ∧ (∀ x ∈ d, x ∈ l) ∧ (∀ x ∈ l, x ∈ d)

/-- Embedding of the tail of `get_all_file_uuids` (lines 131-133): given
`file_uuids = list(set(responses))`, drop the final element when it is
`None`.  Python `file_uuids[-1]` raises `IndexError` on an empty list,
modelled by the `none` result. -/
def get_all_file_uuids (file_uuids : List (Option String)) :
    Option (List (Option String)) :=
  match file_uuids.getLast? with
  | none => none
  | some last => if last = none then some file_uuids.dropLast else some file_uuids

/-! ### Concurrent fan-out driver (src/main.py lines 80-90) -/

/-- An in-flight async operation: its eventual result together with the
wall-clock duration until it completes.  The duration does not influence
`asyncio.gather`'s result list, only the completion order. -/
structure AsyncTask (β : Type) where
  result : β
  duration : Nat
  deriving DecidableEq

/-- Embedding of `async_requester`: one task per input, created in list
order, results collected by `asyncio.gather` in task-creation order.  The
shared session argument of the Python callback is absorbed into
`callback_func`. -/
def async_requester {α β : Type} (arg_list : List α)
    (callback_func : α → AsyncTask β) : List β :=
  let tasks := arg_list.map callback_func
  tasks.map (fun t => t.result)

/-- Insert one `(index, duration)` pair into a list sorted by duration,
after all earlier entries of strictly smaller or equal duration. -/
def insertByDuration (x : Nat × Nat) : List (Nat × Nat) → List (Nat × Nat)
  | [] => [x]
  | y :: ys => if x.2 < y.2 then x :: y :: ys else y :: insertByDuration x ys

/-- Stable insertion sort by duration. -/
def sortByDuration (l : List (Nat × Nat)) : List (Nat × Nat) :=
  l.foldr insertByDuration []

/-- The order (as a list of input positions) in which a batch of tasks
completes on the event loop: positions sorted by task duration. -/
def completionOrder {β : Type} (tasks : List (AsyncTask β)) : List Nat :=
  (sortByDuration ((tasks.map (fun t => t.duration)).enum)).map (fun p => p.1)

/-! ### HTTP layer data (src/main.py lines 15-31, 51-77) -/

/-- The response of `GET /api/claim/special_project/download?...`:
status, the `store_uuid` field of its JSON body (the embedding covers
bodies that carry the field, as every claim does), and the diagnostic
data used by `info_request_log`. -/
structure DlResp where
  status : Nat
  store_uuid : String
  headers : List (String × String)
  text : String
  url : String
  history : List (Nat × String)
  deriving DecidableEq

/-- The response of `GET /api/docstore/<store_uuid>`: status, optional
`Content-Disposition` header, and the served file content.  The source
reads only the header of this response; `body` is carried so theorems can
compare it with what is written to disk. -/
structure DocResp where
  status : Nat
  content_disposition : Option String
  body : List Nat
  deriving DecidableEq

/-- The diagnostic record printed by `info_request_log` (lines 15-31):
cookie jar, status code, headers, response text, final URL, and the
redirect history. -/
structure LogEntry where
  cookies : String
  status : Nat
  headers : List (String × String)
  text : String
  url : String
  history : List (Nat × String)
  deriving DecidableEq

/-- The remote world one authenticated session talks to. -/
structure Env where
  cookies : String
  download : String → DlResp
  docstore : String → DocResp

/-- Embedding of `info_request_log`: it prints exactly the cookie jar,
status, headers, body text, final URL and redirect chain of the given
response. -/
def info_request_log (cookies : String) (r : DlResp) : LogEntry :=
  { cookies := cookies, status := r.status, headers := r.headers,
    text := r.text, url := r.url, history := r.history }

/-- Model of `aiohttp` `response.json()`: it buffers the entire remaining
payload to parse it, so afterwards the raw stream `response.content` is
exhausted and later `read` calls yield nothing.  Returns the extracted
`store_uuid` together with the remaining stream content. -/
def json_and_rest (r : DlResp) : String × List Nat :=
  (r.store_uuid, [])

/-! ### Local filesystem -/

/-- The download directory as an association list from paths to bytes. -/
abbrev FS : Type := List (String × List Nat)

/-- First-match lookup of a path. -/
def fsLookup : FS → String → Option (List Nat)
  | [], _ => none
  | e :: fs, p => if e.1 = p then some e.2 else fsLookup fs p

/-- Embedding of `os.path.exists`. -/
def fsExists (fs : FS) (p : String) : Bool :=
  (fsLookup fs p).isSome

/-! ### Filename resolution (src/main.py lines 34-48) -/

/-- Python `'filename' in content_disposition`. -/
def containsFilename : List Char → Bool
  | [] => false
  | l@(_ :: rest) => ("filename".data.isPrefixOf l) || containsFilename rest

/-- Split off the part of `l` before its last `'"'`:
`splitAtLastQuote l = some before` when `l = before ++ '"' :: after` with
no quote in `after`; `none` when `l` has no quote. -/
def splitAtLastQuote : List Char → Option (List Char)
  | [] => none
  | c :: rest =>
    match splitAtLastQuote rest with
    | some cap => some (c :: cap)
    | none => if c = '"' then some [] else none

/-- The capture of the first match of the Python regex
`filename="(.+)"` (line 43), of which the source keeps element `[0]`:
scan left to right for the literal `filename="`; at the first position
where the greedy group can close (a later quote on the same line, with at
least one character captured), capture up to the last such quote. -/
def findallFilename : List Char → Option (List Char)
  | [] => none
  | l@(_ :: rest) =>
    if "filename=\"".data.isPrefixOf l then
      let seg := (l.drop 10).takeWhile (fun c => c ≠ '\n')
      match splitAtLastQuote seg with
      | some cap => if cap.isEmpty then findallFilename rest else some cap
      | none => findallFilename rest
    else findallFilename rest

/-- Value of one hexadecimal digit. -/
def hexDigitVal (c : Char) : Option Nat :=
  if '0' ≤ c ∧ c ≤ '9' then some (c.toNat - '0'.toNat)
  else if 'a' ≤ c ∧ c ≤ 'f' then some (c.toNat - 'a'.toNat + 10)
  else if 'A' ≤ c ∧ c ≤ 'F' then some (c.toNat - 'A'.toNat + 10)
  else none

/-- The Unicode replacement character U+FFFD, produced by Python's
`errors='replace'` for undecodable byte sequences. -/
def replacementChar : Char := Char.ofNat 0xFFFD

/-- UTF-8 decoding of a byte string with Python's `errors='replace'`
handler: one U+FFFD per maximal subpart of an ill-formed sequence (a
valid but incomplete prefix yields a single replacement and decoding
resumes at the offending byte).  Overlong encodings, surrogates and
leads above U+10FFFF are rejected by the per-lead continuation bounds.
The fuel argument is the byte count, an upper bound on the number of
decoding steps; it only makes the recursion structural and never runs
out. -/
def utf8DecodeAux : Nat → List Nat → List Char
  | _, [] => []
  | 0, _ :: _ => []
  | Nat.succ fuel, b :: rest =>
    if b < 0x80 then Char.ofNat b :: utf8DecodeAux fuel rest
    else if 0xC2 ≤ b ∧ b ≤ 0xDF then
      match rest with
      | [] => [replacementChar]
      | c1 :: rest2 =>
        if 0x80 ≤ c1 ∧ c1 ≤ 0xBF then
          Char.ofNat ((b - 0xC0) * 0x40 + (c1 - 0x80)) :: utf8DecodeAux fuel rest2
        else replacementChar :: utf8DecodeAux fuel rest
    else if 0xE0 ≤ b ∧ b ≤ 0xEF then
      match rest with
      | [] => [replacementChar]
      | c1 :: rest2 =>
        if (if b = 0xE0 then 0xA0 else 0x80) ≤ c1 ∧
            c1 ≤ (if b = 0xED then 0x9F else 0xBF) then
          match rest2 with
          | [] => [replacementChar]
          | c2 :: rest3 =>
            if 0x80 ≤ c2 ∧ c2 ≤ 0xBF then
              Char.ofNat ((b - 0xE0) * 0x1000 + (c1 - 0x80) * 0x40 + (c2 - 0x80)) ::
                utf8DecodeAux fuel rest3
            else replacementChar :: utf8DecodeAux fuel rest2
        else replacementChar :: utf8DecodeAux fuel rest
    else if 0xF0 ≤ b ∧ b ≤ 0xF4 then
      match rest with
      | [] => [replacementChar]
      | c1 :: rest2 =>
        if (if b = 0xF0 then 0x90 else 0x80) ≤ c1 ∧
            c1 ≤ (if b = 0xF4 then 0x8F else 0xBF) then
          match rest2 with
          | [] => [replacementChar]
          | c2 :: rest3 =>
            if 0x80 ≤ c2 ∧ c2 ≤ 0xBF then
              match rest3 with
              | [] => [replacementChar]
              | c3 :: rest4 =>
                if 0x80 ≤ c3 ∧ c3 ≤ 0xBF then
                  Char.ofNat ((b - 0xF0) * 0x40000 + (c1 - 0x80) * 0x1000 +
                    (c2 - 0x80) * 0x40 + (c3 - 0x80)) :: utf8DecodeAux fuel rest4
                else replacementChar :: utf8DecodeAux fuel rest3
            else replacementChar :: utf8DecodeAux fuel rest2
        else replacementChar :: utf8DecodeAux fuel rest
    else replacementChar :: utf8DecodeAux fuel rest

/-- UTF-8 decoding with replacement, as `bytes.decode('utf-8',
'replace')`. -/
def utf8Decode (bs : List Nat) : List Char :=
  utf8DecodeAux bs.length bs

/-- The longest leading run of `%XX` escapes of a string: the collected
bytes and the remaining characters. -/
def percentRun : List Char → List Nat × List Char
  | '%' :: a :: b :: rest =>
    match hexDigitVal a, hexDigitVal b with
    | some hi, some lo =>
      let r := percentRun rest
      ((16 * hi + lo) :: r.1, r.2)
    | _, _ => ([], '%' :: a :: b :: rest)
  | l => ([], l)

/-- One pass of `urllib.parse.unquote(..., encoding='utf-8',
errors='replace')` (line 45): each maximal run of consecutive `%XX`
escapes is collected into a byte string and decoded as UTF-8.  (Python
percent-decodes each maximal ASCII chunk into bytes and decodes the
whole chunk; since a literal ASCII byte is never a continuation byte,
decoding escape runs one at a time agrees with Python's chunk-at-a-time
decode.)  Every other character — including a `%` not followed by two
hex digits, and literal non-ASCII characters — passes through.  The
fuel argument is the character count; it only makes the recursion
structural and never runs out. -/
def unquoteAux : Nat → List Char → List Char
  | _, [] => []
  | 0, l => l
  | Nat.succ fuel, '%' :: a :: b :: rest =>
    match hexDigitVal a, hexDigitVal b with
    | some hi, some lo =>
      let r := percentRun rest
      utf8Decode ((16 * hi + lo) :: r.1) ++ unquoteAux fuel r.2
    | _, _ => '%' :: unquoteAux fuel (a :: b :: rest)
  | Nat.succ fuel, c :: rest => c :: unquoteAux fuel rest

/-- Embedding of `urllib.parse.unquote` with its default UTF-8
decoding. -/
def unquoteChars (l : List Char) : List Char :=
  unquoteAux l.length l

/-- Python's `\w` on `str` patterns is Unicode-aware: it matches the
characters accepted by `str.isalnum()` plus the underscore.  The
embedding is exact on ASCII, where the class is `[A-Za-z0-9_]`, and on
the Russian alphabet `А`–`я` (U+0410–U+044F) together with `Ё`/`ё`
(U+0401/U+0451) — all of them letters, hence word characters — which is
the whole fragment any theorem below evaluates.  Remaining non-ASCII
word characters are outside the modelled fragment and treated as
non-word here; no statement below depends on them: the universal
conjuncts about the sanitizer constrain only ASCII characters of the
result, which is insensitive to how non-ASCII input characters are
classified. -/
def isPyWordChar (c : Char) : Bool :=
  c.isAlphanum || c = '_' ||
    (0x410 ≤ c.toNat && c.toNat ≤ 0x44F) || c.toNat = 0x401 || c.toNat = 0x451

/-- The character class `[A-Za-z0-9_.-]` named by the specification:
what the sanitizer keeps on ASCII input. -/
def isAsciiKept (c : Char) : Bool :=
  c.isAlphanum || c = '_' || c = '.' || c = '-'

/-- Characters kept by `re.sub(r'[^\w\d.-]', '_', ...)` (line 47):
word characters (`\d ⊆ \w`), dot and hyphen. -/
def isKeptChar (c : Char) : Bool :=
  isPyWordChar c || c = '.' || c = '-'

/-- Embedding of `re.sub(r'[^\w\d.-]', '_', filename)`. -/
def pySanitize (l : List Char) : List Char :=
  l.map (fun c => if isKeptChar c then c else '_')

/-- The `^"` alternative of `re.sub(r'^"|"$', '', filename)`: remove one
leading literal quote when present. -/
def dropLeadingQuote (l : List Char) : List Char :=
  match l with
  | '"' :: t => t
  | _ => l

/-- The `"$` alternative: remove one trailing literal quote. -/
def dropTrailingQuote (l : List Char) : List Char :=
  match l.getLast? with
  | some '"' => l.dropLast
  | _ => l

/-- Embedding of `re.sub(r'^"|"$', '', filename)` (line 48): the two
alternatives match at most once each, at the ends of the string. -/
def stripQuotes (l : List Char) : List Char :=
  dropTrailingQuote (dropLeadingQuote l)

/-- Embedding of `get_filename_from_response_headers` (lines 34-48):
request the docstore resource, and on a 200 status resolve a filename
from the `Content-Disposition` header; every other path falls off the
end of the Python function and yields `None`. -/
def get_filename_from_response_headers (env : Env) (store_uuid : String) :
    Option String :=
  let response := env.docstore store_uuid
  if response.status = 200 then
    match response.content_disposition with
    | some cd =>
      if cd = "" then none
      else if containsFilename cd.data then
        match findallFilename cd.data with
        | some cap =>
          some (String.mk (stripQuotes (pySanitize (unquoteChars cap))))
        | none => none
      else none
    | none => none
  else none

/-! ### Downloader (src/main.py lines 51-77, 93-103) -/

/-- Cut a stream into chunks of `n` bytes, as the read loop of lines
69-73 observes them.  The fuel argument is the stream length, an upper
bound on the number of non-empty reads; it only makes the recursion
structural and never runs out. -/
def chunksOfAux (n : Nat) : List Nat → Nat → List (List Nat)
  | [], _ => []
  | _ :: _, 0 => []
  | l, Nat.succ fuel => l.take n :: chunksOfAux n (l.drop n) fuel

/-- All successive `read(n)` results of a stream, until the empty read. -/
def chunksOf (n : Nat) (l : List Nat) : List (List Nat) :=
  chunksOfAux n l l.length

/-- Concatenation of the written chunks. -/
def listJoin : List (List Nat) → List Nat
  | [] => []
  | c :: cs => c ++ listJoin cs

/-- Everything one `download_pdf` call does: its return value (`some
true` or Python `None`), the filesystem afterwards, the number of bytes
written, and the diagnostic records logged. -/
structure DlOutcome where
  result : Option Bool
  fs : FS
  bytesWritten : Nat
  log : List LogEntry
  deriving DecidableEq

/-- Embedding of `download_pdf` (lines 51-77): request the download
descriptor; on 200 parse `store_uuid` out of its JSON body (exhausting
the response stream), resolve a filename via the docstore headers, skip
when the file exists, otherwise write the chunks still readable from the
*descriptor* response; on non-200 log diagnostics.  All other paths
return Python `None`. -/
def download_pdf (env : Env) (fs : FS) (file_uuid : String) : DlOutcome :=
  let response := env.download file_uuid
  if response.status = 200 then
    let parsed := json_and_rest response
    match get_filename_from_response_headers env parsed.1 with
    | some filename =>
      let save_path := "downloads/" ++ filename
      if fsExists fs save_path then
        { result := none, fs := fs, bytesWritten := 0, log := [] }
      else
        let written := listJoin (chunksOf 1024 parsed.2)
        { result := some true, fs := fs ++ [(save_path, written)],
          bytesWritten := written.length, log := [] }
    | none => { result := none, fs := fs, bytesWritten := 0, log := [] }
  else
    { result := none, fs := fs, bytesWritten := 0,
      log := [info_request_log env.cookies response] }

/-- The observable outcome of `download_all_files` (lines 93-103):
the count of truthy results (`len([sd for sd in responses if sd])`), the
filesystem, total bytes written, and diagnostics. -/
structure RunOutcome where
  successes : Nat
  fs : FS
  bytesWritten : Nat
  log : List LogEntry
  deriving DecidableEq

/-- Embedding of `download_all_files`: the fan-out over `file_uuids` is
sequentialised to thread the filesystem.  The claims proved below concern
runs whose outcome no interleaving can change: non-200 and skipped items
never touch the filesystem. -/
def download_all_files (env : Env) (fs : FS) : List String → RunOutcome
  | [] => { successes := 0, fs := fs, bytesWritten := 0, log := [] }
  | u :: us =>
    let o := download_pdf env fs u
    let rest := download_all_files env o.fs us
    { successes := (if o.result = some true then 1 else 0) + rest.successes,
      fs := rest.fs,
      bytesWritten := o.bytesWritten + rest.bytesWritten,
      log := o.log ++ rest.log }

/-! ### Concrete environments used in closed statements -/

/-- A response with nothing in it, for identifiers an environment does not
care about. -/
def blankDlResp : DlResp :=
  { status := 0, store_uuid := "", headers := [], text := "", url := "",
    history := [] }

/-- A blank docstore response. -/
def blankDocResp : DocResp :=
  { status := 0, content_disposition := none, body := [] }

/-- Environment for the download of `"p1"`: the descriptor endpoint
answers 200 with `store_uuid = "s1"`, and the docstore serves a four-byte
file named `doc.pdf`. -/
def envC2 : Env :=
  { cookies := "kgws_lkp=tok"
    download := fun u =>
      if u = "p1" then
        { status := 200, store_uuid := "s1", headers := [], text := "",
          url := "https://safe-route.ru/api/claim/special_project/download",
          history := [] }
      else blankDlResp
    docstore := fun s =>
      if s = "s1" then
        { status := 200,
          content_disposition := some "attachment; filename=\"doc.pdf\"",
          body := [37, 80, 68, 70] }
      else blankDocResp }

/-- Environment whose docstore serves the sanitization example header. -/
def envC4 : Env :=
  { cookies := ""
    download := fun _ => blankDlResp
    docstore := fun s =>
      if s = "s" then
        { status := 200,
          content_disposition := some "filename=\"a b/c?.pdf\"",
          body := [] }
      else blankDocResp }

/-- Environment whose docstore serves a percent-encoded UTF-8 Cyrillic
filename. -/
def envC4cyr : Env :=
  { cookies := ""
    download := fun _ => blankDlResp
    docstore := fun s =>
      if s = "s" then
        { status := 200,
          content_disposition :=
            some "filename=\"%D0%9E%D1%82%D1%87%D0%B5%D1%82.pdf\"",
          body := [] }
      else blankDocResp }

/-- Environment where `"p"` resolves to the filename `f.pdf`. -/
def envC6 : Env :=
  { cookies := ""
    download := fun u =>
      if u = "p" then
        { status := 200, store_uuid := "s", headers := [], text := "",
          url := "", history := [] }
      else blankDlResp
    docstore := fun s =>
      if s = "s" then
        { status := 200, content_disposition := some "filename=\"f.pdf\"",
          body := [] }
      else blankDocResp }

/-- A filesystem already holding `downloads/f.pdf`. -/
def fsC6 : FS := [("downloads/f.pdf", [9, 9])]

/-- Environment where `"bad"` fails with a 404 carrying diagnostics and
`"good"` downloads a file named `g.pdf`. -/
def envC8 : Env :=
  { cookies := "kgws_lkp=tok"
    download := fun u =>
      if u = "bad" then
        { status := 404, store_uuid := "",
          headers := [("Content-Type", "text/html")], text := "not found",
          url := "https://safe-route.ru/final",
          history := [(302, "https://safe-route.ru/login")] }
      else
        { status := 200, store_uuid := "sg", headers := [], text := "",
          url := "", history := [] }
    docstore := fun s =>
      if s = "sg" then
        { status := 200, content_disposition := some "filename=\"g.pdf\"",
          body := [] }
      else blankDocResp }

/-- Environment where the docstore response for `"s"` has a
`Content-Disposition` without a `filename` token, and the one for `"t"`
has no `Content-Disposition` header at all. -/
def envC9 : Env :=
  { cookies := ""
    download := fun u =>
      if u = "p" then
        { status := 200, store_uuid := "s", headers := [], text := "",
          url := "", history := [] }
      else blankDlResp
    docstore := fun s =>
      if s = "s" then
        { status := 200, content_disposition := some "attachment",
          body := [1, 2] }
      else if s = "t" then
        { status := 200, content_disposition := none, body := [1, 2] }
      else blankDocResp }

/-- Fan-out operations for the order-preservation example: the task for
`"B"` completes first (duration 1), before `"A"` (5) and `"C"` (7). -/
def c5op : String → AsyncTask String := fun a =>
  { result := "r" ++ a
    duration := if a = "A" then 5 else if a = "B" then 1 else 7 }

/-! ### C1: listing pagination -/

/-- C1: the claim says a full page restarts the fetch with a doubled
limit and that the recursion terminates once a page smaller than the
current limit arrives.  In the code the doubled limit is passed into the
`number` parameter (src/main.py line 152), so every request keeps
`limit = 1000`: against a server that always fills a 1000-record page the
recursion never terminates, whatever the recursion budget. -/
theorem c1_limit_never_doubles :
    ∀ fuel number : Nat,
      get_all_travel_sheets_uuids (fun _ => List.replicate 1000 (some "u"))
        fuel number 1000 = none := by
  intro fuel
  induction fuel with
  | zero => intro number; rfl
  | succ fuel ih =>
    intro number
    show (if (List.replicate 1000 (some "u")).length = 1000 then
            get_all_travel_sheets_uuids (fun _ => List.replicate 1000 (some "u"))
              fuel (1000 * 2) 1000
          else some ((List.replicate 1000 (some "u")).filterMap id)) = none
    rw [List.length_replicate, if_pos rfl]
    exact ih (1000 * 2)

/-! ### C7: attachment resolver -/

/-- C7: the resolver returns the first candidate record's
`special_project_uuid` field on a non-empty list (the field may be
absent, yielding `none`), and returns `none` instead of an error both on
an empty list and when the field access raises. -/
theorem c7_resolver_first_record :
    get_special_project_file_uuid [] = none ∧
    (∀ (v : Option String) (rest : List SPRecord),
        get_special_project_file_uuid (SPRecord.obj v :: rest) = v) ∧
    (∀ rest : List SPRecord,
        get_special_project_file_uuid (SPRecord.malformed :: rest) = none) :=
  ⟨rfl, fun _ _ => rfl, fun _ => rfl⟩

/-! ### C10: empty listing -/

/-- C10: when the listing yields no travel sheets the resolver fan-out
returns the empty list, its deduplication is empty, and
`get_all_file_uuids` hits `file_uuids[-1]` on an empty list — the
modelled `IndexError` (`none`), not a report of zero documents. -/
theorem c10_empty_listing_index_error :
    (∀ d : List (Option String), IsDedupOf d [] →
       get_all_file_uuids d = none) ∧
    (∀ f : String → AsyncTask (Option String),
       async_requester ([] : List String) f = []) := by
  constructor
  · intro d hd
    cases d with
    | nil => rfl
    | cons x xs => exact absurd (hd.2.1 x (List.mem_cons_self x xs)) (List.not_mem_nil x)
  · intro f; rfl

/-- C10 witness: the empty deduplicated list makes the step raise. -/
theorem c10_empty_listing_index_error_witness :
    IsDedupOf [] [] ∧ get_all_file_uuids [] = none ∧
      async_requester ([] : List String)
        (fun _ => AsyncTask.mk (none : Option String) 0) = [] :=
  ⟨by decide, c10_empty_listing_index_error.1 [] (by decide),
    c10_empty_listing_index_error.2 _⟩

/-! ### C3: deduplication and the sentinel -/

/-- C3 counterexample: `[none, some "a"]` is a legitimate materialisation
of `list(set(responses))` for `responses = [none, some "a"]` (CPython
leaves the order unspecified), yet `get_all_file_uuids` keeps the `none`
sentinel because it is not in the final position — refuting that the
sentinel is always dropped. -/
theorem c3_sentinel_counterexample :
    IsDedupOf [none, some "a"] [none, some "a"] ∧
    get_all_file_uuids [none, some "a"] = some [none, some "a"] ∧
    (none ∈ ([none, some "a"] : List (Option String))) := by decide

/-- C3 (amended): for every materialisation order of the deduplicated
resolver results, the list handed to the download stage contains each
distinct non-null identifier exactly once; the `none` sentinel is dropped
exactly when it occupies the final position of the materialised list, and
is passed through otherwise. -/
theorem c3_dedup_amended :
    ∀ (d l : List (Option String)), IsDedupOf d l → d ≠ [] →
      ∃ r, get_all_file_uuids d = some r ∧ r.Nodup ∧
        (∀ s : String, some s ∈ r ↔ some s ∈ l) ∧
        (none ∈ r ↔ (none ∈ l ∧ d.getLast? ≠ some none)) := by
  intro d l hdl hne
  have hlast : d.getLast? = some (d.getLast hne) :=
    List.getLast?_eq_getLast_of_ne_nil hne
  have hsplit : d.dropLast ++ [d.getLast hne] = d :=
    List.dropLast_append_getLast hne
  have heq : get_all_file_uuids d =
      if d.getLast hne = none then some d.dropLast else some d := by
    unfold get_all_file_uuids
    rw [hlast]
  by_cases hn : d.getLast hne = none
  · refine ⟨d.dropLast, ?_, ?_, ?_, ?_⟩
    · rw [heq, if_pos hn]
    · exact List.Nodup.sublist (List.dropLast_sublist d) hdl.1
    · intro s
      constructor
      · intro hs
        have hmem : some s ∈ d.dropLast ++ [d.getLast hne] :=
          List.mem_append_left _ hs
        rw [hsplit] at hmem
        exact hdl.2.1 _ hmem
      · intro hs
        have hd : some s ∈ d := hdl.2.2 _ hs
        rw [← hsplit] at hd
        rcases List.mem_append.mp hd with h | h
        · exact h
        · rw [hn] at h
          simp at h
    · have hnd : (d.dropLast ++ [d.getLast hne]).Nodup := by
        rw [hsplit]; exact hdl.1
      have hdisj := List.disjoint_of_nodup_append hnd
      constructor
      · intro h
        exact absurd (List.mem_singleton.mpr hn.symm) (hdisj h)
      · intro h
        rw [hlast, hn] at h
        exact absurd rfl h.2
  · refine ⟨d, ?_, hdl.1, fun s => ⟨fun h => hdl.2.1 _ h, fun h => hdl.2.2 _ h⟩, ?_⟩
    · rw [heq, if_neg hn]
    · constructor
      · intro h
        refine ⟨hdl.2.1 _ h, ?_⟩
        rw [hlast]
        intro hcon
        exact hn (Option.some.inj hcon)
      · intro h
        exact hdl.2.2 _ h.1

/-- C3 witness for the amended statement, at a materialisation that ends
with a non-null identifier while the sentinel sits earlier. -/
theorem c3_dedup_amended_witness :
    IsDedupOf [none, some "a"] [some "a", none] ∧
    ([none, some "a"] : List (Option String)) ≠ [] ∧
    (∃ r, get_all_file_uuids [none, some "a"] = some r ∧ r.Nodup ∧
      (∀ s : String, some s ∈ r ↔ some s ∈ ([some "a", none] : List (Option String))) ∧
      (none ∈ r ↔ (none ∈ ([some "a", none] : List (Option String)) ∧
        ([none, some "a"] : List (Option String)).getLast? ≠ some none))) :=
  ⟨by decide, by decide,
    c3_dedup_amended [none, some "a"] [some "a", none] (by decide) (by decide)⟩

/-! ### C5: fan-out order preservation -/

/-- The result list of a fan-out batch, in task-creation order. -/
theorem async_requester_eq {α β : Type} (arg_list : List α)
    (k : α → AsyncTask β) :
    async_requester arg_list k = arg_list.map (fun a => (k a).result) := by
  unfold async_requester
  rw [List.map_map]
  rfl

/-- C5: the fan-out launches one invocation per input and returns results
in input order; the durations of the operations (hence their completion
order) have no influence on the returned list. -/
theorem c5_fanout_order :
    ∀ {α β : Type} (arg_list : List α) (f g : α → AsyncTask β),
      (∀ a, (f a).result = (g a).result) →
      async_requester arg_list f = async_requester arg_list g ∧
      async_requester arg_list f = arg_list.map (fun a => (f a).result) := by
  intro α β arg_list f g h
  refine ⟨?_, async_requester_eq arg_list f⟩
  rw [async_requester_eq arg_list f, async_requester_eq arg_list g]
  induction arg_list with
  | nil => rfl
  | cons a as ih => simp [List.map_cons, h a, ih]

/-- C5 witness: with inputs `[A, B, C]`, the task for `B` completes first
(completion order `[1, 0, 2]`), yet the returned results are in input
order `[result A, result B, result C]`. -/
theorem c5_fanout_order_witness :
    completionOrder (["A", "B", "C"].map c5op) = [1, 0, 2] ∧
    ([1, 0, 2] : List Nat) ≠ [0, 1, 2] ∧
    async_requester ["A", "B", "C"] c5op = ["rA", "rB", "rC"] :=
  ⟨by decide, by decide, by
    rw [(c5_fanout_order ["A", "B", "C"] c5op c5op (fun a => rfl)).2]
    decide⟩

/-! ### C4: filename sanitization -/

/-- Dropping a leading quote only removes characters. -/
theorem mem_dropLeadingQuote {c : Char} {l : List Char}
    (h : c ∈ dropLeadingQuote l) : c ∈ l := by
  unfold dropLeadingQuote at h
  split at h
  · exact List.mem_cons_of_mem _ h
  · exact h

/-- Dropping a trailing quote only removes characters. -/
theorem mem_dropTrailingQuote {c : Char} {l : List Char}
    (h : c ∈ dropTrailingQuote l) : c ∈ l := by
  unfold dropTrailingQuote at h
  split at h
  · exact (List.dropLast_sublist l).subset h
  · exact h

/-- Quote stripping only removes characters. -/
theorem mem_of_mem_stripQuotes {c : Char} {l : List Char}
    (h : c ∈ stripQuotes l) : c ∈ l :=
  mem_dropLeadingQuote (mem_dropTrailingQuote h)

/-- Every character surviving the substitution is in the kept class. -/
theorem isKeptChar_of_mem_pySanitize {c : Char} {l : List Char}
    (h : c ∈ pySanitize l) : isKeptChar c = true := by
  unfold pySanitize at h
  rcases List.mem_map.mp h with ⟨a, -, rfl⟩
  by_cases hk : isKeptChar a
  · rw [if_pos hk]; exact hk
  · rw [if_neg hk]; decide

/-- On ASCII characters the kept class of the sanitizer is exactly the
specification's `[A-Za-z0-9_.-]`. -/
theorem isAsciiKept_of_isKeptChar (c : Char) (hlt : c.toNat < 128)
    (h : isKeptChar c = true) : isAsciiKept c = true := by
  have hr : ¬ (0x410 ≤ c.toNat ∧ c.toNat ≤ 0x44F) := by omega
  have he1 : ¬ c.toNat = 0x401 := by omega
  have he2 : ¬ c.toNat = 0x451 := by omega
  unfold isKeptChar isPyWordChar at h
  unfold isAsciiKept
  simp only [Bool.or_eq_true, Bool.and_eq_true, decide_eq_true_eq] at h ⊢
  tauto

/-- C4 counterexample: the header value
`filename="%D0%9E%D1%82%D1%87%D0%B5%D1%82.pdf"` URL-decodes (UTF-8) to
the Cyrillic `Отчет.pdf`, whose letters Python's Unicode-aware `\w`
keeps: the resolved filename contains `О` (U+041E), a character outside
`[A-Za-z0-9_.-]` that was not replaced by `_` — refuting the claimed
replacement of every character outside that class. -/
theorem c4_unicode_counterexample :
    get_filename_from_response_headers envC4cyr "s" = some "Отчет.pdf" ∧
    Char.ofNat 0x41E ∈ "Отчет.pdf".data ∧
    isAsciiKept (Char.ofNat 0x41E) = false := by decide

/-- C4 (amended): for a `Content-Disposition` header with a quoted
filename token, resolution URL-decodes the captured value (UTF-8),
replaces every character outside Python's word class plus dot and
hyphen by `_` — so every ASCII character of the result lies in
`[A-Za-z0-9_.-]`, while non-ASCII word characters are kept — and strips
surrounding quotes; on the header value `filename="a b/c?.pdf"` the
capture is `a b/c?.pdf` and the resolved name is `a_b_c_.pdf`. -/
theorem c4_filename_sanitization :
    (∀ (env : Env) (s cd : String) (cap : List Char),
      (env.docstore s).status = 200 →
      (env.docstore s).content_disposition = some cd →
      cd ≠ "" →
      containsFilename cd.data = true →
      findallFilename cd.data = some cap →
      get_filename_from_response_headers env s =
        some (String.mk (stripQuotes (pySanitize (unquoteChars cap)))) ∧
      (∀ c ∈ stripQuotes (pySanitize (unquoteChars cap)),
        c.toNat < 128 → isAsciiKept c = true) ∧
      (∀ c ∈ stripQuotes (pySanitize (unquoteChars cap)), isKeptChar c = true)) ∧
    findallFilename ("filename=\"a b/c?.pdf\"".data) = some ("a b/c?.pdf".data) ∧
    get_filename_from_response_headers envC4 "s" = some "a_b_c_.pdf" := by
  refine ⟨?_, by decide, by decide⟩
  intro env s cd cap h200 hcd hne hcf hcap
  refine ⟨?_, ?_, ?_⟩
  · unfold get_filename_from_response_headers
    simp [h200, hcd, hne, hcf, hcap]
  · intro c hc hlt
    exact isAsciiKept_of_isKeptChar c hlt
      (isKeptChar_of_mem_pySanitize (mem_of_mem_stripQuotes hc))
  · intro c hc
    exact isKeptChar_of_mem_pySanitize (mem_of_mem_stripQuotes hc)

/-- C4 witness: the ASCII example header, run through the resolver, with
every ASCII character of the result in the specification's class. -/
theorem c4_filename_sanitization_witness :
    (envC4.docstore "s").status = 200 ∧
    (envC4.docstore "s").content_disposition = some "filename=\"a b/c?.pdf\"" ∧
    containsFilename ("filename=\"a b/c?.pdf\"".data) = true ∧
    findallFilename ("filename=\"a b/c?.pdf\"".data) = some ("a b/c?.pdf".data) ∧
    get_filename_from_response_headers envC4 "s" =
      some (String.mk (stripQuotes (pySanitize (unquoteChars ("a b/c?.pdf".data))))) ∧
    (∀ c ∈ stripQuotes (pySanitize (unquoteChars ("a b/c?.pdf".data))),
      c.toNat < 128 → isAsciiKept c = true) :=
  ⟨by decide, by decide, by decide, by decide,
    (c4_filename_sanitization.1 envC4 "s" "filename=\"a b/c?.pdf\""
      ("a b/c?.pdf".data) (by decide) (by decide) (by decide) (by decide)
      (by decide)).1,
    (c4_filename_sanitization.1 envC4 "s" "filename=\"a b/c?.pdf\""
      ("a b/c?.pdf".data) (by decide) (by decide) (by decide) (by decide)
      (by decide)).2.1⟩

/-! ### Downloader branch lemmas -/

/-- A non-200 descriptor response: nothing written, diagnostics logged. -/
theorem download_pdf_not200 (env : Env) (fs : FS) (u : String)
    (h : ¬ (env.download u).status = 200) :
    download_pdf env fs u =
      { result := none, fs := fs, bytesWritten := 0,
        log := [info_request_log env.cookies (env.download u)] } := by
  unfold download_pdf
  rw [if_neg h]

/-- No filename resolved: the download is skipped silently. -/
theorem download_pdf_no_filename (env : Env) (fs : FS) (u : String)
    (h200 : (env.download u).status = 200)
    (hfn : get_filename_from_response_headers env (env.download u).store_uuid = none) :
    download_pdf env fs u =
      { result := none, fs := fs, bytesWritten := 0, log := [] } := by
  unfold download_pdf
  rw [if_pos h200]
  simp [json_and_rest, hfn]

/-- The file already exists: skip, no write, no fresh success. -/
theorem download_pdf_exists (env : Env) (fs : FS) (u : String) (fn : String)
    (h200 : (env.download u).status = 200)
    (hfn : get_filename_from_response_headers env (env.download u).store_uuid = some fn)
    (hex : fsExists fs ("downloads/" ++ fn) = true) :
    download_pdf env fs u =
      { result := none, fs := fs, bytesWritten := 0, log := [] } := by
  unfold download_pdf
  rw [if_pos h200]
  simp [json_and_rest, hfn, hex]

/-- A fresh download: the loop writes the chunks still readable from the
descriptor response, which `response.json()` has already exhausted. -/
theorem download_pdf_write (env : Env) (fs : FS) (u : String) (fn : String)
    (h200 : (env.download u).status = 200)
    (hfn : get_filename_from_response_headers env (env.download u).store_uuid = some fn)
    (hex : fsExists fs ("downloads/" ++ fn) = false) :
    download_pdf env fs u =
      { result := some true, fs := fs ++ [("downloads/" ++ fn, [])],
        bytesWritten := 0, log := [] } := by
  unfold download_pdf
  rw [if_pos h200]
  simp [json_and_rest, hfn, hex, chunksOf, chunksOfAux, listJoin]

/-! ### Filesystem lemmas -/

/-- Appending entries does not change an existing first match. -/
theorem fsLookup_append_left (fs l : FS) (p : String) (b : List Nat)
    (h : fsLookup fs p = some b) : fsLookup (fs ++ l) p = some b := by
  induction fs with
  | nil => simp [fsLookup] at h
  | cons e fs ih =>
    unfold fsLookup at h
    show (if e.1 = p then some e.2 else fsLookup (fs ++ l) p) = some b
    by_cases he : e.1 = p
    · rw [if_pos he] at h ⊢; exact h
    · rw [if_neg he] at h ⊢; exact ih h

/-- A fresh path appended at the end becomes findable. -/
theorem fsLookup_append_new (fs : FS) (p : String) (c : List Nat)
    (h : fsLookup fs p = none) : fsLookup (fs ++ [(p, c)]) p = some c := by
  induction fs with
  | nil => simp [fsLookup]
  | cons e fs ih =>
    unfold fsLookup at h
    show (if e.1 = p then some e.2 else fsLookup (fs ++ [(p, c)]) p) = some c
    by_cases he : e.1 = p
    · rw [if_pos he] at h; cases h
    · rw [if_neg he] at h ⊢; exact ih h

/-- One `download_pdf` call never changes an existing file's content. -/
theorem download_pdf_fs_lookup (env : Env) (fs : FS) (u : String)
    (p : String) (b : List Nat) (h : fsLookup fs p = some b) :
    fsLookup (download_pdf env fs u).fs p = some b := by
  by_cases h200 : (env.download u).status = 200
  · cases hfn : get_filename_from_response_headers env (env.download u).store_uuid with
    | none => rw [download_pdf_no_filename env fs u h200 hfn]; exact h
    | some fn =>
      cases hex : fsExists fs ("downloads/" ++ fn) with
      | true => rw [download_pdf_exists env fs u fn h200 hfn hex]; exact h
      | false =>
        rw [download_pdf_write env fs u fn h200 hfn hex]
        exact fsLookup_append_left fs _ p b h
  · rw [download_pdf_not200 env fs u h200]; exact h

/-- One `download_pdf` call never deletes a file. -/
theorem download_pdf_fs_exists (env : Env) (fs : FS) (u : String)
    (p : String) (h : fsExists fs p = true) :
    fsExists (download_pdf env fs u).fs p = true := by
  unfold fsExists at h ⊢
  cases hl : fsLookup fs p with
  | none => rw [hl] at h; simp at h
  | some b => rw [download_pdf_fs_lookup env fs u p b hl]; rfl

/-- A whole run never changes an existing file's content. -/
theorem download_all_files_fs_lookup (env : Env) (us : List String) :
    ∀ (fs : FS) (p : String) (b : List Nat), fsLookup fs p = some b →
      fsLookup (download_all_files env fs us).fs p = some b := by
  induction us with
  | nil => intro fs p b h; exact h
  | cons u us ih =>
    intro fs p b h
    show fsLookup (download_all_files env (download_pdf env fs u).fs us).fs p = some b
    exact ih _ p b (download_pdf_fs_lookup env fs u p b h)

/-- A whole run never deletes a file. -/
theorem download_all_files_fs_exists (env : Env) (us : List String)
    (fs : FS) (p : String) (h : fsExists fs p = true) :
    fsExists (download_all_files env fs us).fs p = true := by
  unfold fsExists at h ⊢
  cases hl : fsLookup fs p with
  | none => rw [hl] at h; simp at h
  | some b => rw [download_all_files_fs_lookup env us fs p b hl]; rfl

/-- After a run, the resolved path of every processed 200-with-filename
item is present in the filesystem. -/
theorem download_all_files_path_exists (env : Env) (us : List String) :
    ∀ (fs : FS) (u fn : String), u ∈ us →
      (env.download u).status = 200 →
      get_filename_from_response_headers env (env.download u).store_uuid = some fn →
      fsExists (download_all_files env fs us).fs ("downloads/" ++ fn) = true := by
  induction us with
  | nil => intro fs u fn h; exact absurd h (List.not_mem_nil u)
  | cons v vs ih =>
    intro fs u fn hmem h200 hfn
    show fsExists (download_all_files env (download_pdf env fs v).fs vs).fs
      ("downloads/" ++ fn) = true
    rcases List.mem_cons.mp hmem with rfl | hmem2
    · have hex : fsExists (download_pdf env fs u).fs ("downloads/" ++ fn) = true := by
        cases hex0 : fsExists fs ("downloads/" ++ fn) with
        | true => exact download_pdf_fs_exists env fs u _ hex0
        | false =>
          rw [download_pdf_write env fs u fn h200 hfn hex0]
          have hnone : fsLookup fs ("downloads/" ++ fn) = none := by
            unfold fsExists at hex0
            cases hl : fsLookup fs ("downloads/" ++ fn) with
            | none => rfl
            | some b => rw [hl] at hex0; simp at hex0
          unfold fsExists
          rw [fsLookup_append_new fs _ [] hnone]
          rfl
      exact download_all_files_fs_exists env vs _ _ hex
    · exact ih _ u fn hmem2 h200 hfn

/-- A run over items whose resolved files all already exist does nothing:
no success is counted, no byte is written, the filesystem is unchanged. -/
theorem download_all_files_skip (env : Env) (us : List String) :
    ∀ fs : FS,
      (∀ u ∈ us, ∀ fn : String, (env.download u).status = 200 →
        get_filename_from_response_headers env (env.download u).store_uuid = some fn →
        fsExists fs ("downloads/" ++ fn) = true) →
      (download_all_files env fs us).successes = 0 ∧
      (download_all_files env fs us).fs = fs ∧
      (download_all_files env fs us).bytesWritten = 0 := by
  induction us with
  | nil => intro fs h; exact ⟨rfl, rfl, rfl⟩
  | cons u us ih =>
    intro fs h
    have ho : (download_pdf env fs u).result = none ∧
        (download_pdf env fs u).fs = fs ∧
        (download_pdf env fs u).bytesWritten = 0 := by
      by_cases h200 : (env.download u).status = 200
      · cases hfn : get_filename_from_response_headers env (env.download u).store_uuid with
        | none =>
          rw [download_pdf_no_filename env fs u h200 hfn]
          exact ⟨rfl, rfl, rfl⟩
        | some fn =>
          have hex := h u (List.mem_cons_self u us) fn h200 hfn
          rw [download_pdf_exists env fs u fn h200 hfn hex]
          exact ⟨rfl, rfl, rfl⟩
      · rw [download_pdf_not200 env fs u h200]; exact ⟨rfl, rfl, rfl⟩
    have hrest := ih fs (fun v hv => h v (List.mem_cons_of_mem u hv))
    refine ⟨?_, ?_, ?_⟩
    · show (if (download_pdf env fs u).result = some true then 1 else 0) +
        (download_all_files env (download_pdf env fs u).fs us).successes = 0
      rw [ho.2.1, ho.1, hrest.1]
      simp
    · show (download_all_files env (download_pdf env fs u).fs us).fs = fs
      rw [ho.2.1, hrest.2.1]
    · show (download_pdf env fs u).bytesWritten +
        (download_all_files env (download_pdf env fs u).fs us).bytesWritten = 0
      rw [ho.2.1, ho.2.2, hrest.2.2]

/-! ### C2: what a successful download writes -/

/-- C2: the claim says a successful download writes exactly the docstore
file content, streamed in 1024-byte chunks.  In the code the chunk loop
reads from the descriptor response, whose stream `response.json()` has
already exhausted: on a descriptor answering 200 with `store_uuid = s1`
and a docstore serving a non-empty four-byte file `doc.pdf`, the run
reports success but writes an empty `downloads/doc.pdf`, and the chunk
loop observes no chunk at all. -/
theorem c2_empty_file_written :
    download_pdf envC2 [] "p1" =
      { result := some true, fs := [("downloads/doc.pdf", [])],
        bytesWritten := 0, log := [] } ∧
    (envC2.docstore "s1").body = [37, 80, 68, 70] ∧
    ([37, 80, 68, 70] : List Nat) ≠ [] ∧
    chunksOf 1024 ([] : List Nat) = [] := by decide

/-! ### C9: missing filename metadata -/

/-- C9: when filename resolution yields nothing — no `Content-Disposition`
header, or no `filename` token in it — the download is skipped silently:
no file is written, nothing is logged, and the item's result is Python
`None`, counted as unsuccessful. -/
theorem c9_missing_filename_skip :
    (∀ (env : Env) (fs : FS) (u : String),
      (env.download u).status = 200 →
      get_filename_from_response_headers env (env.download u).store_uuid = none →
      download_pdf env fs u =
        { result := none, fs := fs, bytesWritten := 0, log := [] }) ∧
    (∀ (env : Env) (s : String),
      (env.docstore s).content_disposition = none →
      get_filename_from_response_headers env s = none) ∧
    (∀ (env : Env) (s cd : String),
      (env.docstore s).content_disposition = some cd →
      containsFilename cd.data = false →
      get_filename_from_response_headers env s = none) := by
  refine ⟨?_, ?_, ?_⟩
  · intro env fs u h200 hfn
    exact download_pdf_no_filename env fs u h200 hfn
  · intro env s hcd
    by_cases h : (env.docstore s).status = 200
    · simp [get_filename_from_response_headers, h, hcd]
    · simp [get_filename_from_response_headers, h]
  · intro env s cd hcd hcf
    by_cases h : (env.docstore s).status = 200
    · simp [get_filename_from_response_headers, h, hcd, hcf]
    · simp [get_filename_from_response_headers, h]

/-- C9 witness: a docstore response without a filename token (`"s"`), one
without the header (`"t"`), and the resulting silent skip of `"p"`. -/
theorem c9_missing_filename_skip_witness :
    download_pdf envC9 [] "p" =
      { result := none, fs := [], bytesWritten := 0, log := [] } ∧
    get_filename_from_response_headers envC9 "t" = none ∧
    get_filename_from_response_headers envC9 "s" = none :=
  ⟨c9_missing_filename_skip.1 envC9 [] "p" (by decide) (by decide),
   c9_missing_filename_skip.2.1 envC9 "t" (by decide),
   c9_missing_filename_skip.2.2 envC9 "s" "attachment" (by decide) (by decide)⟩

/-! ### C8: non-200 download failures -/

/-- Splitting a run at any point composes counters, filesystem and log. -/
theorem download_all_files_append (env : Env) (xs ys : List String) :
    ∀ fs : FS,
      download_all_files env fs (xs ++ ys) =
        { successes := (download_all_files env fs xs).successes +
            (download_all_files env (download_all_files env fs xs).fs ys).successes,
          fs := (download_all_files env (download_all_files env fs xs).fs ys).fs,
          bytesWritten := (download_all_files env fs xs).bytesWritten +
            (download_all_files env (download_all_files env fs xs).fs ys).bytesWritten,
          log := (download_all_files env fs xs).log ++
            (download_all_files env (download_all_files env fs xs).fs ys).log } := by
  induction xs with
  | nil => intro fs; simp [download_all_files]
  | cons u xs ih =>
    intro fs
    simp only [List.cons_append, download_all_files, List.append_eq]
    rw [ih]
    simp [Nat.add_assoc, List.append_assoc]

/-- Processing a failing item logs its diagnostics and leaves counters,
bytes and filesystem to the remaining items. -/
theorem download_all_files_cons_fail (env : Env) (g : FS) (u : String)
    (vs : List String) (hne : ¬ (env.download u).status = 200) :
    download_all_files env g (u :: vs) =
      { successes := (download_all_files env g vs).successes,
        fs := (download_all_files env g vs).fs,
        bytesWritten := (download_all_files env g vs).bytesWritten,
        log := info_request_log env.cookies (env.download u) ::
          (download_all_files env g vs).log } := by
  simp only [download_all_files]
  rw [download_pdf_not200 env g u hne]
  simp

/-- C8: a non-200 status on the descriptor request logs the full
diagnostic context (cookies, status, headers, body text, final URL,
redirect chain), writes nothing, yields a falsy result for the item, and
the rest of the account's batch proceeds exactly as if run on its own:
the failure only fails to add to the success count. -/
theorem c8_non200_logged_and_continues :
    ∀ (env : Env) (fs : FS) (u : String) (us vs : List String),
      ¬ (env.download u).status = 200 →
      download_pdf env fs u =
        { result := none, fs := fs, bytesWritten := 0,
          log := [info_request_log env.cookies (env.download u)] } ∧
      (info_request_log env.cookies (env.download u)).status =
        (env.download u).status ∧
      (info_request_log env.cookies (env.download u)).headers =
        (env.download u).headers ∧
      (info_request_log env.cookies (env.download u)).text =
        (env.download u).text ∧
      (info_request_log env.cookies (env.download u)).cookies = env.cookies ∧
      (info_request_log env.cookies (env.download u)).url =
        (env.download u).url ∧
      (info_request_log env.cookies (env.download u)).history =
        (env.download u).history ∧
      download_all_files env fs (us ++ u :: vs) =
        { successes := (download_all_files env fs us).successes +
            (download_all_files env (download_all_files env fs us).fs vs).successes,
          fs := (download_all_files env (download_all_files env fs us).fs vs).fs,
          bytesWritten := (download_all_files env fs us).bytesWritten +
            (download_all_files env (download_all_files env fs us).fs vs).bytesWritten,
          log := (download_all_files env fs us).log ++
            info_request_log env.cookies (env.download u) ::
              (download_all_files env (download_all_files env fs us).fs vs).log } := by
  intro env fs u us vs hne
  refine ⟨download_pdf_not200 env fs u hne, rfl, rfl, rfl, rfl, rfl, rfl, ?_⟩
  rw [download_all_files_append env us (u :: vs) fs,
    download_all_files_cons_fail env _ u vs hne]

/-- C8 witness: the 404 item `"bad"` is logged and not counted, while the
following item `"good"` still downloads, for a 1-of-2 success count. -/
theorem c8_non200_logged_and_continues_witness :
    ¬ (envC8.download "bad").status = 200 ∧
    download_pdf envC8 [] "bad" =
      { result := none, fs := [], bytesWritten := 0,
        log := [info_request_log envC8.cookies (envC8.download "bad")] } ∧
    (info_request_log envC8.cookies (envC8.download "bad")).status = 404 ∧
    (download_all_files envC8 [] ["bad", "good"]).successes = 1 :=
  ⟨by decide,
   (c8_non200_logged_and_continues envC8 [] "bad" [] ["good"] (by decide)).1,
   by decide,
   by decide⟩

/-! ### C6: idempotence of the download stage -/

/-- C6: when the resolved file already exists the downloader reports the
skip (a falsy result, no fresh success), writes no bytes and logs
nothing; a whole run never changes the content found under an existing
path; and a second run over the same identifiers counts zero successes,
writes zero bytes and leaves the filesystem of the first run unchanged. -/
theorem c6_download_idempotent :
    ∀ (env : Env) (fs : FS) (us : List String),
      (∀ u fn : String, (env.download u).status = 200 →
        get_filename_from_response_headers env (env.download u).store_uuid = some fn →
        fsExists fs ("downloads/" ++ fn) = true →
        download_pdf env fs u =
          { result := none, fs := fs, bytesWritten := 0, log := [] }) ∧
      (∀ (p : String) (b : List Nat), fsLookup fs p = some b →
        fsLookup (download_all_files env fs us).fs p = some b) ∧
      ((download_all_files env (download_all_files env fs us).fs us).successes = 0 ∧
       (download_all_files env (download_all_files env fs us).fs us).fs =
         (download_all_files env fs us).fs ∧
       (download_all_files env (download_all_files env fs us).fs us).bytesWritten = 0) := by
  intro env fs us
  refine ⟨?_, ?_, ?_⟩
  · intro u fn h200 hfn hex
    exact download_pdf_exists env fs u fn h200 hfn hex
  · intro p b h
    exact download_all_files_fs_lookup env us fs p b h
  · refine download_all_files_skip env us _ ?_
    intro u hu fn h200 hfn
    exact download_all_files_path_exists env us fs u fn hu h200 hfn

/-- C6 witness: `downloads/f.pdf` is already present, so downloading
`"p"` (which resolves to `f.pdf`) skips, the pre-existing content
survives the run, and the second run counts zero successes. -/
theorem c6_download_idempotent_witness :
    (envC6.download "p").status = 200 ∧
    get_filename_from_response_headers envC6 (envC6.download "p").store_uuid =
      some "f.pdf" ∧
    fsExists fsC6 ("downloads/" ++ "f.pdf") = true ∧
    download_pdf envC6 fsC6 "p" =
      { result := none, fs := fsC6, bytesWritten := 0, log := [] } ∧
    fsLookup (download_all_files envC6 fsC6 ["p"]).fs "downloads/f.pdf" =
      some [9, 9] ∧
    (download_all_files envC6 (download_all_files envC6 fsC6 ["p"]).fs
      ["p"]).successes = 0 :=
  ⟨by decide, by decide, by decide,
   (c6_download_idempotent envC6 fsC6 ["p"]).1 "p" "f.pdf" (by decide)
     (by decide) (by decide),
   (c6_download_idempotent envC6 fsC6 ["p"]).2.1 "downloads/f.pdf" [9, 9]
     (by decide),
   (c6_download_idempotent envC6 fsC6 ["p"]).2.2.1⟩
